import Mathlib

set_option maxHeartbeats 1000000

/-!
Shallow embedding of `src/python/ray/ray_operator/operator.py`.

The module is the control loop of a Kubernetes operator: a module-level
status queue consumed by a background worker thread
(`status_handling_loop`), a `RayCluster` class supervising one autoscaling
cluster (config, on-disk config mirror, one monitor subprocess plus a
`multiprocessing.Event` used as cancellation signal), a module-level
registry dict `ray_clusters`, and the kopf handlers `create_fn`,
`update_fn`, `delete_fn`.

The embedding models the mutable module state as an explicit `World`
(registry association list, status queue contents in enqueue order, a
table of all subprocesses ever spawned with their liveness, a fresh-pid
counter, and the on-disk config files), and each handler as a pure
function from a world to a world together with a trace of the observable
actions it performs, in execution order.  External collaborators that are
not part of the source file (`operator_utils.cr_to_config`,
`operator_utils.check_redis_password_not_specified`,
`commands.create_or_update_cluster`, `monitor.Monitor`) are represented
at their boundary: the config a body converts to is carried on the body,
and the success of the external password check and of the supervised
provisioning/monitoring work are Boolean oracles supplied with the event.
The subprocess spawned by a handler is executed deterministically after
the handler returns (provisioning is slow relative to handler code), with
its effects appended to the trace; a successful subprocess blocks in the
monitor loop and stays alive until its stop event is raised.
-/

namespace RayOperator

/-- Cluster identifier: a (name, namespace) pair, the key of the
`ray_clusters` registry dict. -/
abbrev ClusterId := String × String

/-- Autoscaling configuration document, as produced by
`operator_utils.cr_to_config`.  The source only reads
`config["cluster_name"]` and `config["provider"]["namespace"]`; the rest
of the document is opaque and modelled by `payload`. -/
structure Config where
  cluster_name : String
  provider_namespace : String
  payload : Nat
deriving DecidableEq, Repr

/-- The closed set of status phases written to `status.phase`
(`STATUS_UPDATING`, `STATUS_RUNNING`, `STATUS_AUTOSCALING_EXCEPTION`). -/
inductive Phase where
  | Updating
  | Running
  | AutoscalingException
deriving DecidableEq, Repr

/-- An item of `cluster_status_q`: `(cluster_name, cluster_namespace, phase)`. -/
abbrev StatusItem := String × String × Phase

/-- The `status` object of a resource body; the `autoscalerRetries` field
(`AUTOSCALER_RETRIES_FIELD`) may be absent. -/
structure Status where
  autoscalerRetries : Option Nat
deriving DecidableEq, Repr

/-- The `metadata` object of a resource body; the `generation` key may be
absent, in which case indexing `["metadata"]["generation"]` raises
`KeyError`. -/
structure Metadata where
  generation : Option Nat
deriving DecidableEq, Repr

/-- A resource body as seen by the handlers: its `metadata`, its optional
`status` object, and the configuration `operator_utils.cr_to_config`
derives from it (that conversion is outside the source file, so the
resulting config is carried on the body). -/
structure Body where
  metadata : Metadata
  status : Option Status
  config : Config
deriving DecidableEq, Repr

/-- Python exceptions that the embedded handlers can raise. -/
inductive PyErr where
  | keyError (key : String)
  | valueError (msg : String)
deriving DecidableEq, Repr

/-- Association-list lookup, modelling `dict.get` / `dict[k]`. -/
def alist_lookup {α β : Type} [DecidableEq α] (k : α) : List (α × β) → Option β
  | [] => none
  | (k', v) :: t => if k = k' then some v else alist_lookup k t

/-- Association-list insertion/replacement, modelling `dict[k] = v`. -/
def alist_insert {α β : Type} [DecidableEq α] (k : α) (v : β) :
    List (α × β) → List (α × β)
  | [] => [(k, v)]
  | (k', v') :: t =>
      if k = k' then (k, v) :: t else (k', v') :: alist_insert k v t

/-- Association-list removal, modelling `del dict[k]` / `os.remove`: every
binding of the key is removed (a Python dict holds at most one). -/
def alist_erase {α β : Type} [DecidableEq α] (k : α) : List (α × β) → List (α × β)
  | [] => []
  | (k', v') :: t =>
      if k = k' then alist_erase k t else (k', v') :: alist_erase k t

/-- The `RayCluster` object: its config, the name and namespace read from
the config in `__init__`, the pid of the monitor subprocess it currently
tracks (if any), and its `monitor_stop_event`. -/
structure RayCluster where
  config : Config
  name : String
  nspace : String
  subprocess : Option Nat
  monitor_stop_event : Bool
deriving DecidableEq, Repr

/-- `RayCluster.__init__`: reads name and namespace from the config; no
subprocess yet; the stop event starts cleared. -/
def RayCluster.init (config : Config) : RayCluster :=
  { config := config
  , name := config.cluster_name
  , nspace := config.provider_namespace
  , subprocess := none
  , monitor_stop_event := false }

/-- The identifier a `RayCluster` derives from its own config (used for
its `config_path` and its subprocess name). -/
def RayCluster.cid (c : RayCluster) : ClusterId := (c.name, c.nspace)

/-- The whole mutable state of the module: the `ray_clusters` registry,
the contents of `cluster_status_q` in enqueue order, the table of all
subprocesses ever spawned (pid, owning cluster identifier, alive flag), a
counter supplying fresh pids, and the on-disk config files keyed by the
deterministic `config_path` of `(name, namespace)`. -/
structure World where
  ray_clusters : List (ClusterId × RayCluster)
  cluster_status_q : List StatusItem
  procs : List (Nat × ClusterId × Bool)
  next_pid : Nat
  disk : List (ClusterId × Config)
deriving DecidableEq, Repr

/-- The module state at interpreter start: everything empty. -/
def init_world : World :=
  { ray_clusters := []
  , cluster_status_q := []
  , procs := []
  , next_pid := 0
  , disk := [] }

/-- Observable actions of the handlers and of the supervised subprocess,
in execution order. -/
inductive Act where
  | put (name nspace : String) (phase : Phase)
  | set_stop_event (k : ClusterId)
  | join_subprocess (k : ClusterId) (pid : Nat)
  | clear_stop_event (k : ClusterId)
  | spawn_subprocess (k : ClusterId) (pid : Nat) (restart_ray : Bool)
  | write_config (k : ClusterId) (config : Config)
  | provision (k : ClusterId) (no_restart : Bool)
  | run_monitor (k : ClusterId)
  | remove_logging (k : ClusterId)
  | remove_config (k : ClusterId) (existed : Bool)
deriving DecidableEq, Repr

/-- Whether an action is the launch of a supervised subprocess. -/
def Act.is_spawn : Act → Bool
  | .spawn_subprocess _ _ _ => true
  | _ => false

/-- Whether an action persists the configuration to its config path. -/
def Act.is_write_config : Act → Bool
  | .write_config _ _ => true
  | _ => false

/-- Whether an action launches a supervised subprocess with
`restart_ray = true`. -/
def Act.spawn_restart : Act → Bool
  | .spawn_subprocess _ _ restart_ray => restart_ray
  | _ => false

/-- Whether a process table contains a live entry for the given pid. -/
def alive_in (procs : List (Nat × ClusterId × Bool)) (pid : Nat) : Bool :=
  procs.any (fun e => e.1 == pid && e.2.2)

/-- Whether the process with the given pid is alive
(`self.subprocess.is_alive()`). -/
def proc_alive (w : World) (pid : Nat) : Bool :=
  alive_in w.procs pid

/-- Mark the process with the given pid as exited. -/
def kill_proc (procs : List (Nat × ClusterId × Bool)) (pid : Nat) :
    List (Nat × ClusterId × Bool) :=
  procs.map (fun e => if e.1 = pid then (e.1, e.2.1, false) else e)

/-- Enqueue a status item on `cluster_status_q`. -/
def put_status (w : World) (name nspace : String) (p : Phase) : World :=
  { w with cluster_status_q := w.cluster_status_q ++ [(name, nspace, p)] }

/-- `RayCluster.clean_up_subprocess`: if the tracked subprocess exists and
is alive, set the stop event, join the process (it exits), and clear the
event; otherwise do nothing.  Returns the updated cluster object, the
updated world, and the trace. -/
def clean_up_subprocess (c : RayCluster) (w : World) :
    RayCluster × World × List Act :=
  match c.subprocess with
  | some pid =>
      if proc_alive w pid then
        ({ c with monitor_stop_event := false },
         { w with procs := kill_proc w.procs pid },
         [Act.set_stop_event c.cid, Act.join_subprocess c.cid pid,
          Act.clear_stop_event c.cid])
      else (c, w, [])
  | none => (c, w, [])

/-- A pending subprocess: the forked copy of the cluster object, the pid
of the process, and the `restart_ray` argument it was given. -/
structure ChildJob where
  cluster : RayCluster
  pid : Nat
  restart_ray : Bool
deriving DecidableEq, Repr

/-- `RayCluster.do_in_subprocess` specialized (as in the source) to the
target `_create_or_update` with argument `restart_ray`: first
`clean_up_subprocess`, then spawn a fresh process and track it. -/
def do_in_subprocess (c : RayCluster) (w : World) (restart_ray : Bool) :
    RayCluster × World × List Act × ChildJob :=
  let r := clean_up_subprocess c w
  let c1 := r.1
  let w1 := r.2.1
  let pid := w1.next_pid
  let c2 := { c1 with subprocess := some pid }
  let w2 := { w1 with
      procs := (pid, c1.cid, true) :: w1.procs
      , next_pid := pid + 1 }
  (c2, w2, r.2.2 ++ [Act.spawn_subprocess c1.cid pid restart_ray],
   { cluster := c2, pid := pid, restart_ray := restart_ray })

/-- `RayCluster.create_or_update`: run `_create_or_update(restart_ray)` in
a subprocess. -/
def create_or_update (c : RayCluster) (w : World) (restart_ray : Bool) :
    RayCluster × World × List Act × ChildJob :=
  do_in_subprocess c w restart_ray

/-- The configuration returned by the external provisioning routine
`commands.create_or_update_cluster`.  That routine is outside the source
file; no claim depends on how it transforms the document, so it is
modelled as the identity. -/
def provision_result (c : Config) : Config := c

/-- The body of `_create_or_update` running inside the spawned subprocess:
`start_head` writes the config to disk, invokes the external provisioner,
and (on success) re-writes the returned config; `start_monitor` then runs
the monitor loop, which blocks (the process stays alive).  On failure the
`except` clause enqueues an `AutoscalingException` status item for the
cluster and re-raises, so the process exits abnormally. -/
def run_child (j : ChildJob) (work_ok : Bool) (w : World) : World × List Act :=
  let c := j.cluster
  let k := c.cid
  let w1 := { w with disk := alist_insert k c.config w.disk }
  if work_ok then
    let cfg' := provision_result c.config
    let w2 := { w1 with disk := alist_insert k cfg' w1.disk }
    (w2,
     [Act.write_config k c.config, Act.provision k (!j.restart_ray),
      Act.write_config k cfg', Act.run_monitor k])
  else
    let w2 := { w1 with
        cluster_status_q :=
          w1.cluster_status_q ++ [(c.name, c.nspace, Phase.AutoscalingException)]
        , procs := kill_proc w1.procs j.pid }
    (w2,
     [Act.write_config k c.config, Act.provision k (!j.restart_ray),
      Act.put c.name c.nspace Phase.AutoscalingException])

/-- `create_fn` (also bound to resume events): convert the body, check the
password precondition (`redis_ok` is the outcome of the external
`check_redis_password_not_specified`, which raises on failure before any
state mutation), construct a `RayCluster`, insert it into the registry,
enqueue `Updating`, launch the supervised work, enqueue `Running`;
`work_ok` is the outcome of the supervised provisioning/monitoring work,
whose effects follow the handler's. -/
def create_fn (w : World) (body : Body) (name nspace : String)
    (redis_ok work_ok : Bool) : Except PyErr (World × List Act) :=
  let cluster_config := body.config
  let cluster_identifier : ClusterId := (name, nspace)
  if !redis_ok then
    .error (.valueError "redis password may not be specified")
  else
    let ray_cluster := RayCluster.init cluster_config
    let w1 := { w with
        ray_clusters := alist_insert cluster_identifier ray_cluster w.ray_clusters }
    let w2 := put_status w1 name nspace Phase.Updating
    let r := create_or_update ray_cluster w2 false
    let w3 := { r.2.1 with
        ray_clusters := alist_insert cluster_identifier r.1 r.2.1.ray_clusters }
    let w4 := put_status w3 name nspace Phase.Running
    let child := run_child r.2.2.2 work_ok w4
    .ok (child.1,
         Act.put name nspace Phase.Updating :: r.2.2.1
           ++ [Act.put name nspace Phase.Running] ++ child.2)

/-- `body.get("status", {}).get(AUTOSCALER_RETRIES_FIELD, 0)`: a missing
status object or a missing retries field defaults to 0. -/
def autoscaler_retries_of (b : Body) : Nat :=
  match b.status with
  | none => 0
  | some s =>
      match s.autoscalerRetries with
      | none => 0
      | some r => r

/-- `update_fn`: read `metadata.generation` of both bodies by unchecked
indexing (raising `KeyError` when absent), read the retry counters with
defaults, and if either strictly increased: look up or create the
supervisor, enqueue `Updating`, stop the existing subprocess, replace the
config, relaunch with `restart_ray` set iff the retries increased, and
enqueue `Running`; otherwise do nothing. -/
def update_fn (w : World) (old new : Body) (name nspace : String)
    (work_ok : Bool) : Except PyErr (World × List Act) :=
  let cluster_config := new.config
  let cluster_identifier : ClusterId := (name, nspace)
  match old.metadata.generation with
  | none => .error (.keyError "generation")
  | some old_generation =>
  match new.metadata.generation with
  | none => .error (.keyError "generation")
  | some current_generation =>
  let old_autoscaler_retries := autoscaler_retries_of old
  let autoscaler_retries := autoscaler_retries_of new
  let spec_changed : Bool := current_generation > old_generation
  let ray_restart_required : Bool := autoscaler_retries > old_autoscaler_retries
  if spec_changed || ray_restart_required then
    let found := alist_lookup cluster_identifier w.ray_clusters
    let ray_cluster := found.getD (RayCluster.init cluster_config)
    let w0 :=
      match found with
      | some _ => w
      | none =>
          { w with ray_clusters :=
              alist_insert cluster_identifier ray_cluster w.ray_clusters }
    let w1 := put_status w0 name nspace Phase.Updating
    let r1 := clean_up_subprocess ray_cluster w1
    let c2 := { r1.1 with config := cluster_config }
    let r2 := create_or_update c2 r1.2.1 ray_restart_required
    let w3 := { r2.2.1 with
        ray_clusters := alist_insert cluster_identifier r2.1 r2.2.1.ray_clusters }
    let w4 := put_status w3 name nspace Phase.Running
    let child := run_child r2.2.2.2 work_ok w4
    .ok (child.1,
         Act.put name nspace Phase.Updating :: r1.2.2 ++ r2.2.2.1
           ++ [Act.put name nspace Phase.Running] ++ child.2)
  else
    .ok (w, [])

/-- `delete_fn`: look up the supervisor; if absent return immediately; if
present run `clean_up` (stop the subprocess, release the log handler,
remove the on-disk config tolerating a missing file) and delete the
registry entry. -/
def delete_fn (w : World) (name nspace : String) : World × List Act :=
  let cluster_identifier : ClusterId := (name, nspace)
  match alist_lookup cluster_identifier w.ray_clusters with
  | none => (w, [])
  | some ray_cluster =>
      let r := clean_up_subprocess ray_cluster w
      let k := ray_cluster.cid
      let existed := (alist_lookup k r.2.1.disk).isSome
      let w2 := { r.2.1 with disk := alist_erase k r.2.1.disk }
      let w3 := { w2 with
          ray_clusters := alist_erase cluster_identifier w2.ray_clusters }
      (w3, r.2.2 ++ [Act.remove_logging k, Act.remove_config k existed])

/-- A lifecycle event delivered by the watch framework, together with the
outcomes of the external collaborators it consults. -/
inductive Event where
  | create (body : Body) (name nspace : String) (redis_ok work_ok : Bool)
  | update (old new : Body) (name nspace : String) (work_ok : Bool)
  | delete (name nspace : String)
deriving DecidableEq, Repr

/-- Whether an event is a create/resume event. -/
def Event.is_create : Event → Bool
  | .create _ _ _ _ _ => true
  | _ => false

/-- Apply one event to the world.  A handler that raises leaves the world
unchanged (the framework catches the error). -/
def applyEvent (w : World) : Event → World × List Act
  | .create body name nspace redis_ok work_ok =>
      match create_fn w body name nspace redis_ok work_ok with
      | .ok r => r
      | .error _ => (w, [])
  | .update old new name nspace work_ok =>
      match update_fn w old new name nspace work_ok with
      | .ok r => r
      | .error _ => (w, [])
  | .delete name nspace => delete_fn w name nspace

/-- Run a sequence of events from a given world. -/
def runEvents (w : World) : List Event → World
  | [] => w
  | e :: t => runEvents (applyEvent w e).1 t

/-- A body is coherent with the handler's name/namespace arguments when
the config `cr_to_config` derives from it carries the same name and
namespace — the contract of `cr_to_config`, which builds the config from
the resource whose metadata supplies those arguments. -/
def body_coherent (b : Body) (name nspace : String) : Bool :=
  b.config.cluster_name == name && b.config.provider_namespace == nspace

/-- Delivery discipline for one event against the current world: every
body is coherent with its handler arguments, and a create/resume event is
only delivered for an identifier that has no registry entry (the watch
framework fires create on initial observation and resume against a fresh
registry; a recreation is preceded by a delete). -/
def event_ok (w : World) : Event → Bool
  | .create body name nspace _ _ =>
      body_coherent body name nspace
        && (alist_lookup (name, nspace) w.ray_clusters).isNone
  | .update _ new name nspace _ => body_coherent new name nspace
  | .delete _ _ => true

/-- Well-formed delivery of an event sequence from a given world. -/
def wf_events (w : World) : List Event → Bool
  | [] => true
  | e :: t => event_ok w e && wf_events (applyEvent w e).1 t

/-- Whether an update event takes action: both generations are present and
either the generation or the (defaulted) retry counter strictly
increased. -/
def update_taken (old new : Body) : Bool :=
  match old.metadata.generation, new.metadata.generation with
  | some og, some ng =>
      decide (ng > og)
        || decide (autoscaler_retries_of new > autoscaler_retries_of old)
  | _, _ => false

/-- One step of the registry-membership history: a create for K that
passed the precondition check, or an update for K that took action,
registers K; a delete for K unregisters it; other events leave the state
alone. -/
def registered_step (b : Bool) (e : Event) (k : ClusterId) : Bool :=
  match e with
  | .create _ name nspace redis_ok _ =>
      if (name, nspace) = k ∧ redis_ok = true then true else b
  | .update old new name nspace _ =>
      if (name, nspace) = k ∧ update_taken old new = true then true else b
  | .delete name nspace => if (name, nspace) = k then false else b

/-- The registry-membership history predicate: after the events, K is
registered iff a create event for K that passed the precondition check,
or an update event for K that took action, has been observed, and no
delete event for K has since been processed. -/
def registered_model (es : List Event) (k : ClusterId) : Bool :=
  es.foldl (fun b e => registered_step b e k) false

/-- `status_handling_loop`, as a function of the sequence of values
dequeued from the status queue: it processes items in FIFO order and
stops at the `None` sentinel; `set_status` failures are caught and do not
stop the loop. -/
def status_handling_loop : List (Option StatusItem) → List StatusItem
  | [] => []
  | none :: _ => []
  | some it :: t => it :: status_handling_loop t

/-- `status_handling_loop` declares one required positional parameter,
the queue. -/
def status_handling_loop_required_args : Nat := 1

/-- `start_background_worker` constructs the worker thread as
`threading.Thread(target=status_handling_loop, daemon=True)`, supplying
no target arguments. -/
def start_background_worker_supplied_args : Nat := 0

/-- The items processed by the worker thread spawned at startup: Python
calls the thread target with the supplied arguments, and a call with
fewer positional arguments than required raises `TypeError`, terminating
the thread before it dequeues anything (`none` = the thread crashed). -/
def worker_thread_processed (q : List (Option StatusItem)) :
    Option (List StatusItem) :=
  if start_background_worker_supplied_args < status_handling_loop_required_args
  then none
  else some (status_handling_loop q)

/-- Every `provision` action in a trace is preceded by a `write_config`
action for the same cluster identifier. -/
def persisted_before_provision : List Act → List ClusterId → Bool
  | [], _ => true
  | Act.write_config k _ :: t, ws => persisted_before_provision t (k :: ws)
  | Act.provision k _ :: t, ws =>
      decide (k ∈ ws) && persisted_before_provision t ws
  | _ :: t, ws => persisted_before_provision t ws

/-- The system invariant backing the at-most-one-process property: every
live subprocess is the tracked subprocess of the supervisor registered
under its identifier; all spawned pids are below the fresh-pid counter;
and every registered supervisor derives its own identifier from its
registry key. -/
def Inv (w : World) : Prop :=
  (∀ p k, (p, k, true) ∈ w.procs →
      ∃ c, alist_lookup k w.ray_clusters = some c ∧ c.subprocess = some p)
  ∧ (∀ e ∈ w.procs, e.1 < w.next_pid)
  ∧ (∀ e ∈ w.ray_clusters, RayCluster.cid e.2 = e.1)

/-! Concrete sample data used to exercise the handlers at specific
inputs. -/

/-- A sample configuration for cluster `foo` in namespace `ns1`. -/
def sample_config : Config :=
  { cluster_name := "foo", provider_namespace := "ns1", payload := 7 }

/-- A second sample configuration for the same cluster (changed spec). -/
def sample_config2 : Config :=
  { cluster_name := "foo", provider_namespace := "ns1", payload := 9 }

/-- A sample body with the given generation and no status object. -/
def sample_body (g : Nat) : Body :=
  { metadata := { generation := some g }, status := none,
    config := sample_config }

/-- A sample body with the given generation, the given retry counter, and
the changed configuration. -/
def sample_body_retries (g r : Nat) : Body :=
  { metadata := { generation := some g },
    status := some { autoscalerRetries := some r }, config := sample_config }

/-- A sample body with a bumped generation and the changed
configuration. -/
def sample_body2 (g : Nat) : Body :=
  { metadata := { generation := some g }, status := none,
    config := sample_config2 }

/-- A sample supervisor for `(foo, ns1)` tracking live subprocess 0. -/
def sample_supervisor : RayCluster :=
  { config := sample_config, name := "foo", nspace := "ns1",
    subprocess := some 0, monitor_stop_event := false }

/-- A sample world in which `(foo, ns1)` is registered with a live
subprocess and an on-disk config. -/
def sample_world : World :=
  { ray_clusters := [(("foo", "ns1"), sample_supervisor)]
  , cluster_status_q := []
  , procs := [(0, ("foo", "ns1"), true)]
  , next_pid := 1
  , disk := [(("foo", "ns1"), sample_config)] }

/-! Helper lemmas about the association-list and process-table
operations. -/

theorem alist_lookup_insert_self {α β : Type} [DecidableEq α] (k : α) (v : β)
    (l : List (α × β)) : alist_lookup k (alist_insert k v l) = some v := by
  induction l with
  | nil => simp [alist_insert, alist_lookup]
  | cons e t ih =>
      obtain ⟨k', v'⟩ := e
      by_cases hk : k = k'
      · simp [alist_insert, alist_lookup, hk]
      · simp [alist_insert, alist_lookup, hk, ih]

theorem alist_lookup_insert_ne {α β : Type} [DecidableEq α] {j k : α}
    (h : j ≠ k) (v : β) (l : List (α × β)) :
    alist_lookup j (alist_insert k v l) = alist_lookup j l := by
  induction l with
  | nil => simp [alist_insert, alist_lookup, h]
  | cons e t ih =>
      obtain ⟨k', v'⟩ := e
      by_cases hk : k = k'
      · subst hk
        simp [alist_insert, alist_lookup, h]
      · by_cases hj : j = k'
        · simp [alist_insert, alist_lookup, hk, hj]
        · simp [alist_insert, alist_lookup, hk, hj, ih]

theorem alist_lookup_erase_self {α β : Type} [DecidableEq α] (k : α)
    (l : List (α × β)) : alist_lookup k (alist_erase k l) = none := by
  induction l with
  | nil => simp [alist_erase, alist_lookup]
  | cons e t ih =>
      obtain ⟨k', v'⟩ := e
      by_cases hk : k = k'
      · subst hk
        simpa [alist_erase] using ih
      · simp [alist_erase, alist_lookup, hk, ih]

theorem alist_lookup_erase_ne {α β : Type} [DecidableEq α] {j k : α}
    (h : j ≠ k) (l : List (α × β)) :
    alist_lookup j (alist_erase k l) = alist_lookup j l := by
  induction l with
  | nil => simp [alist_erase]
  | cons e t ih =>
      obtain ⟨k', v'⟩ := e
      by_cases hk : k = k'
      · subst hk
        simp [alist_erase, alist_lookup, h, ih]
      · by_cases hj : j = k'
        · simp [alist_erase, alist_lookup, hk, hj]
        · simp [alist_erase, alist_lookup, hk, hj, ih]

theorem alist_lookup_mem {α β : Type} [DecidableEq α] {k : α} {v : β}
    {l : List (α × β)} (h : alist_lookup k l = some v) : (k, v) ∈ l := by
  induction l with
  | nil => simp [alist_lookup] at h
  | cons e t ih =>
      obtain ⟨k', v'⟩ := e
      by_cases hk : k = k'
      · simp [alist_lookup, hk] at h
        subst hk
        subst h
        exact List.mem_cons_self _ _
      · simp [alist_lookup, hk] at h
        exact List.mem_cons_of_mem _ (ih h)

theorem alist_mem_insert {α β : Type} [DecidableEq α] {e : α × β} {k : α}
    {v : β} {l : List (α × β)} (h : e ∈ alist_insert k v l) :
    e = (k, v) ∨ e ∈ l := by
  induction l with
  | nil =>
      rw [alist_insert] at h
      rcases List.mem_cons.mp h with h | h
      · exact Or.inl h
      · cases h
  | cons e' t ih =>
      obtain ⟨k', v'⟩ := e'
      by_cases hk : k = k'
      · rw [alist_insert, if_pos hk] at h
        rcases List.mem_cons.mp h with h | h
        · exact Or.inl h
        · exact Or.inr (List.mem_cons_of_mem _ h)
      · rw [alist_insert, if_neg hk] at h
        rcases List.mem_cons.mp h with h | h
        · exact Or.inr (by rw [h]; exact List.mem_cons_self _ _)
        · rcases ih h with h' | h'
          · exact Or.inl h'
          · exact Or.inr (List.mem_cons_of_mem _ h')

theorem alist_mem_erase {α β : Type} [DecidableEq α] {e : α × β} {k : α}
    {l : List (α × β)} (h : e ∈ alist_erase k l) : e ∈ l := by
  induction l with
  | nil =>
      rw [alist_erase] at h
      cases h
  | cons e' t ih =>
      obtain ⟨k', v'⟩ := e'
      by_cases hk : k = k'
      · rw [alist_erase, if_pos hk] at h
        exact List.mem_cons_of_mem _ (ih h)
      · rw [alist_erase, if_neg hk] at h
        rcases List.mem_cons.mp h with h | h
        · rw [h]
          exact List.mem_cons_self _ _
        · exact List.mem_cons_of_mem _ (ih h)

theorem mem_kill_proc_alive {l : List (Nat × ClusterId × Bool)} {p q : Nat}
    {k : ClusterId} (h : (q, k, true) ∈ kill_proc l p) :
    q ≠ p ∧ (q, k, true) ∈ l := by
  induction l with
  | nil => cases h
  | cons e t ih =>
      obtain ⟨p', k', b'⟩ := e
      rw [kill_proc, List.map_cons] at h
      rcases List.mem_cons.mp h with h | h
      · by_cases hp : p' = p
        · rw [if_pos hp] at h
          simp [Prod.ext_iff] at h
        · rw [if_neg hp] at h
          have h' := h
          simp only [Prod.mk.injEq] at h'
          obtain ⟨h1, h2, h3⟩ := h'
          subst h1
          exact ⟨hp, by rw [h2, h3]; exact List.mem_cons_self _ _⟩
      · rcases ih h with ⟨h1, h2⟩
        exact ⟨h1, List.mem_cons_of_mem _ h2⟩

theorem mem_kill_proc_pid {l : List (Nat × ClusterId × Bool)} {p : Nat}
    {e : Nat × ClusterId × Bool} (h : e ∈ kill_proc l p) :
    ∃ b, (e.1, e.2.1, b) ∈ l := by
  induction l with
  | nil => cases h
  | cons e' t ih =>
      obtain ⟨p', k', b'⟩ := e'
      rw [kill_proc, List.map_cons] at h
      rcases List.mem_cons.mp h with h | h
      · by_cases hp : p' = p
        · rw [if_pos hp] at h
          refine ⟨b', ?_⟩
          rw [h]
          exact List.mem_cons_self _ _
        · rw [if_neg hp] at h
          refine ⟨b', ?_⟩
          rw [h]
          exact List.mem_cons_self _ _
      · rcases ih h with ⟨b, hb⟩
        exact ⟨b, List.mem_cons_of_mem _ hb⟩

theorem alive_in_of_mem {l : List (Nat × ClusterId × Bool)} {p : Nat}
    {k : ClusterId} (h : (p, k, true) ∈ l) : alive_in l p = true := by
  induction l with
  | nil => cases h
  | cons e t ih =>
      rcases List.mem_cons.mp h with h | h
      · rw [alive_in, List.any_cons, ← h]
        simp
      · rw [alive_in, List.any_cons]
        rw [alive_in] at ih
        simp [ih h]

theorem alive_in_kill_self (l : List (Nat × ClusterId × Bool)) (p : Nat) :
    alive_in (kill_proc l p) p = false := by
  induction l with
  | nil => rfl
  | cons e t ih =>
      obtain ⟨p', k', b'⟩ := e
      rw [kill_proc, List.map_cons, alive_in, List.any_cons]
      rw [kill_proc] at ih
      rw [alive_in] at ih
      by_cases hp : p' = p
      · rw [if_pos hp]
        simp [ih]
      · rw [if_neg hp]
        simp [ih, hp]

theorem not_mem_of_alive_in_false {l : List (Nat × ClusterId × Bool)}
    {p : Nat} {k : ClusterId} (h : alive_in l p = false) :
    (p, k, true) ∉ l := by
  intro hmem
  rw [alive_in_of_mem hmem] at h
  cases h

/-! Characterization of `clean_up_subprocess`. -/

theorem clean_up_subprocess_none {c : RayCluster} (w : World)
    (h : c.subprocess = none) : clean_up_subprocess c w = (c, w, []) := by
  simp [clean_up_subprocess, h]

theorem clean_up_subprocess_dead {c : RayCluster} {w : World} {p : Nat}
    (h : c.subprocess = some p) (hd : proc_alive w p = false) :
    clean_up_subprocess c w = (c, w, []) := by
  simp [clean_up_subprocess, h, hd]

theorem clean_up_subprocess_alive {c : RayCluster} {w : World} {p : Nat}
    (h : c.subprocess = some p) (ha : proc_alive w p = true) :
    clean_up_subprocess c w =
      ({ c with monitor_stop_event := false },
       { w with procs := kill_proc w.procs p },
       [Act.set_stop_event c.cid, Act.join_subprocess c.cid p,
        Act.clear_stop_event c.cid]) := by
  simp [clean_up_subprocess, h, ha]

theorem clean_up_subprocess_world_ray_clusters (c : RayCluster) (w : World) :
    (clean_up_subprocess c w).2.1.ray_clusters = w.ray_clusters := by
  rcases hcs : c.subprocess with _ | p
  · simp [clean_up_subprocess, hcs]
  · by_cases ha : proc_alive w p = true
    · simp [clean_up_subprocess, hcs, ha]
    · rw [Bool.not_eq_true] at ha
      simp [clean_up_subprocess, hcs, ha]

theorem clean_up_subprocess_world_next_pid (c : RayCluster) (w : World) :
    (clean_up_subprocess c w).2.1.next_pid = w.next_pid := by
  rcases hcs : c.subprocess with _ | p
  · simp [clean_up_subprocess, hcs]
  · by_cases ha : proc_alive w p = true
    · simp [clean_up_subprocess, hcs, ha]
    · rw [Bool.not_eq_true] at ha
      simp [clean_up_subprocess, hcs, ha]

/-! The claims. -/

/-- C1: the spec says the worker thread spawned at startup dequeues every
status item, writes its phase, terminates at the sentinel, and shutdown
flushes the queue.  The source spawns the thread with
`threading.Thread(target=status_handling_loop, daemon=True)`, supplying
no arguments to a target that requires its queue parameter, so the thread
dies with a `TypeError` before dequeuing anything — no queue contents are
ever processed — while the loop body itself, invoked as intended,
processes the items in order and stops at the sentinel. -/
theorem c1_worker_thread_never_runs :
    (∀ q : List (Option StatusItem), worker_thread_processed q = none)
      ∧ status_handling_loop
          [some ("foo", "ns1", Phase.Updating),
           some ("foo", "ns1", Phase.Running), none]
          = [("foo", "ns1", Phase.Updating), ("foo", "ns1", Phase.Running)] :=
  ⟨fun _ => rfl, rfl⟩

/-- C3: an update event whose new generation and new (defaulted) retry
count are both not strictly greater than the old ones performs no
supervisor action, enqueues no status item, and leaves the registry (and
the whole world) unchanged. -/
theorem c3_inert_update (w : World) (old new : Body) (name nspace : String)
    (work_ok : Bool) (g g' : Nat)
    (hold : old.metadata.generation = some g)
    (hnew : new.metadata.generation = some g')
    (hgen : g' ≤ g)
    (hret : autoscaler_retries_of new ≤ autoscaler_retries_of old) :
    update_fn w old new name nspace work_ok = .ok (w, []) := by
  have h1 : ¬ (g < g') := Nat.not_lt.mpr hgen
  have h2 : ¬ (autoscaler_retries_of old < autoscaler_retries_of new) :=
    Nat.not_lt.mpr hret
  simp [update_fn, hold, hnew, h1, h2]

/-- Witness for C3 at a concrete status-echo update. -/
theorem c3_inert_update_witness :
    update_fn init_world
      { metadata := { generation := some 1 }, status := none,
        config := { cluster_name := "foo", provider_namespace := "ns1", payload := 7 } }
      { metadata := { generation := some 1 }, status := none,
        config := { cluster_name := "foo", provider_namespace := "ns1", payload := 7 } }
      "foo" "ns1" true = .ok (init_world, []) :=
  c3_inert_update init_world _ _ "foo" "ns1" true 1 1 rfl rfl
    (Nat.le_refl 1) (Nat.le_refl 0)

/-- C10: the update handler indexes `metadata.generation` unconditionally
on both bodies: if either body lacks the field it raises `KeyError`
before any supervisor, registry, or status-queue action (the applied
event leaves the world unchanged and performs no action). -/
theorem c10_missing_generation_raises (w : World) (old new : Body)
    (name nspace : String) (work_ok : Bool)
    (h : old.metadata.generation = none ∨ new.metadata.generation = none) :
    update_fn w old new name nspace work_ok = .error (.keyError "generation")
      ∧ applyEvent w (.update old new name nspace work_ok) = (w, []) := by
  have herr :
      update_fn w old new name nspace work_ok = .error (.keyError "generation") := by
    rcases h with h | h
    · simp [update_fn, h]
    · cases hog : old.metadata.generation with
      | none => simp [update_fn, hog]
      | some g => simp [update_fn, hog, h]
  exact ⟨herr, by simp [applyEvent, herr]⟩

/-- Witness for C10 at a concrete body lacking `metadata.generation`. -/
theorem c10_missing_generation_raises_witness :
    update_fn init_world
      { metadata := { generation := none }, status := none,
        config := { cluster_name := "foo", provider_namespace := "ns1", payload := 7 } }
      { metadata := { generation := some 2 }, status := none,
        config := { cluster_name := "foo", provider_namespace := "ns1", payload := 7 } }
      "foo" "ns1" true = .error (.keyError "generation") :=
  (c10_missing_generation_raises init_world _ _ "foo" "ns1" true (Or.inl rfl)).1

theorem run_child_ray_clusters (j : ChildJob) (ok : Bool) (w : World) :
    (run_child j ok w).1.ray_clusters = w.ray_clusters := by
  cases ok <;> simp [run_child]

theorem run_child_next_pid (j : ChildJob) (ok : Bool) (w : World) :
    (run_child j ok w).1.next_pid = w.next_pid := by
  cases ok <;> simp [run_child]

/-- C2 counterexample: on a create whose supervised work fails, the
status queue receives `Updating`, `Running`, `AutoscalingException` — a
`Running` item is enqueued (by the handler, which does not wait for the
subprocess), so the enqueued items are not `[Updating,
AutoscalingException]` as claimed. -/
theorem c2_counterexample :
    ((create_fn init_world
        { metadata := { generation := some 1 }, status := none,
          config := { cluster_name := "foo", provider_namespace := "ns1",
                      payload := 7 } }
        "foo" "ns1" true false).toOption.map (fun r => r.1.cluster_status_q))
      = some [("foo", "ns1", Phase.Updating), ("foo", "ns1", Phase.Running),
              ("foo", "ns1", Phase.AutoscalingException)]
    ∧ ((create_fn init_world
        { metadata := { generation := some 1 }, status := none,
          config := { cluster_name := "foo", provider_namespace := "ns1",
                      payload := 7 } }
        "foo" "ns1" true false).toOption.map (fun r => r.1.cluster_status_q))
      ≠ some [("foo", "ns1", Phase.Updating),
              ("foo", "ns1", Phase.AutoscalingException)] := by
  constructor
  · rfl
  · decide

/-- C2 amended: on every create event that passes the precondition check
but whose supervised provisioning fails, the handler enqueues `Updating`
and then `Running` unconditionally (the launch does not wait for the
subprocess), the failing subprocess additionally enqueues
`AutoscalingException`, and the registry entry for the identifier remains
present. -/
theorem c2_failing_create (w : World) (body : Body) (name nspace : String) :
    ((create_fn w body name nspace true false).toOption.map
        (fun r => r.1.cluster_status_q))
      = some (w.cluster_status_q ++
          [(name, nspace, Phase.Updating), (name, nspace, Phase.Running),
           (body.config.cluster_name, body.config.provider_namespace,
            Phase.AutoscalingException)])
    ∧ ((create_fn w body name nspace true false).toOption.map
          (fun r => (alist_lookup (name, nspace) r.1.ray_clusters).isSome))
        = some true := by
  constructor
  · simp [create_fn, put_status, create_or_update, do_in_subprocess,
      clean_up_subprocess, RayCluster.init, run_child, RayCluster.cid,
      Except.toOption]
  · simp [create_fn, put_status, create_or_update, do_in_subprocess,
      clean_up_subprocess, RayCluster.init, run_child, RayCluster.cid,
      Except.toOption, alist_lookup_insert_self]

/-- C6 counterexample: on a concrete create event the launch of the
supervised process is trace position 1 while the first persist of the
configuration is trace position 3 — the config is not written
synchronously before the process is launched (the write is the first
action of the launched process itself). -/
theorem c6_counterexample :
    ((create_fn init_world
        { metadata := { generation := some 1 }, status := none,
          config := { cluster_name := "foo", provider_namespace := "ns1",
                      payload := 7 } }
        "foo" "ns1" true true).toOption.map
        (fun r => r.2.findIdx Act.is_spawn)) = some 1
    ∧ ((create_fn init_world
        { metadata := { generation := some 1 }, status := none,
          config := { cluster_name := "foo", provider_namespace := "ns1",
                      payload := 7 } }
        "foo" "ns1" true true).toOption.map
        (fun r => r.2.findIdx Act.is_write_config)) = some 3
    ∧ ((create_fn init_world
        { metadata := { generation := some 1 }, status := none,
          config := { cluster_name := "foo", provider_namespace := "ns1",
                      payload := 7 } }
        "foo" "ns1" true true).toOption.map (fun r => r.2.length)) = some 7 := by
  refine ⟨rfl, rfl, rfl⟩

/-- C6 amended: for every call to `createOrUpdate` the configuration is
persisted to the config path by the supervised process itself, as its
first action, before the provisioning step reads the file — not
synchronously before the launch; in every handler trace, every
`provision` action is preceded by a `write_config` action for the same
cluster. -/
theorem c6_persist_precedes_provision (w : World) (e : Event) :
    persisted_before_provision (applyEvent w e).2 [] = true := by
  cases e with
  | create body name nspace redis_ok work_ok =>
      cases redis_ok with
      | false => simp [applyEvent, create_fn, persisted_before_provision]
      | true =>
          cases work_ok with
          | true =>
              simp [applyEvent, create_fn, put_status, create_or_update,
                do_in_subprocess, clean_up_subprocess, RayCluster.init,
                run_child, persisted_before_provision]
          | false =>
              simp [applyEvent, create_fn, put_status, create_or_update,
                do_in_subprocess, clean_up_subprocess, RayCluster.init,
                run_child, persisted_before_provision]
  | update old new name nspace work_ok =>
      cases hog : old.metadata.generation with
      | none => simp [applyEvent, update_fn, hog, persisted_before_provision]
      | some g =>
      cases hng : new.metadata.generation with
      | none =>
          simp [applyEvent, update_fn, hog, hng, persisted_before_provision]
      | some g' =>
      by_cases hb :
          (decide (g' > g)
            || decide (autoscaler_retries_of new > autoscaler_retries_of old))
            = true
      · cases hf : alist_lookup (name, nspace) w.ray_clusters with
        | none =>
            cases work_ok with
            | true =>
                simp [applyEvent, update_fn, hog, hng, hb, hf, put_status,
                  create_or_update, do_in_subprocess, clean_up_subprocess,
                  RayCluster.init, run_child, persisted_before_provision]
            | false =>
                simp [applyEvent, update_fn, hog, hng, hb, hf, put_status,
                  create_or_update, do_in_subprocess, clean_up_subprocess,
                  RayCluster.init, run_child, persisted_before_provision]
        | some c =>
            rcases hcs : c.subprocess with _ | p
            · cases work_ok with
              | true =>
                  simp [applyEvent, update_fn, hog, hng, hb, hf, put_status,
                    create_or_update, do_in_subprocess, clean_up_subprocess,
                    hcs, run_child, persisted_before_provision]
              | false =>
                  simp [applyEvent, update_fn, hog, hng, hb, hf, put_status,
                    create_or_update, do_in_subprocess, clean_up_subprocess,
                    hcs, run_child, persisted_before_provision]
            · by_cases ha : alive_in w.procs p = true
              · cases work_ok with
                | true =>
                    simp [applyEvent, update_fn, hog, hng, hb, hf, put_status,
                      create_or_update, do_in_subprocess, clean_up_subprocess,
                      hcs, proc_alive, ha, alive_in_kill_self, run_child,
                      persisted_before_provision]
                | false =>
                    simp [applyEvent, update_fn, hog, hng, hb, hf, put_status,
                      create_or_update, do_in_subprocess, clean_up_subprocess,
                      hcs, proc_alive, ha, alive_in_kill_self, run_child,
                      persisted_before_provision]
              · rw [Bool.not_eq_true] at ha
                cases work_ok with
                | true =>
                    simp [applyEvent, update_fn, hog, hng, hb, hf, put_status,
                      create_or_update, do_in_subprocess, clean_up_subprocess,
                      hcs, proc_alive, ha, run_child,
                      persisted_before_provision]
                | false =>
                    simp [applyEvent, update_fn, hog, hng, hb, hf, put_status,
                      create_or_update, do_in_subprocess, clean_up_subprocess,
                      hcs, proc_alive, ha, run_child,
                      persisted_before_provision]
      · rw [Bool.not_eq_true] at hb
        simp [applyEvent, update_fn, hog, hng, hb, persisted_before_provision]
  | delete name nspace =>
      cases hf : alist_lookup (name, nspace) w.ray_clusters with
      | none => simp [applyEvent, delete_fn, hf, persisted_before_provision]
      | some c =>
          rcases hcs : c.subprocess with _ | p
          · simp [applyEvent, delete_fn, hf, clean_up_subprocess, hcs,
              persisted_before_provision]
          · by_cases ha : alive_in w.procs p = true
            · simp [applyEvent, delete_fn, hf, clean_up_subprocess, hcs,
                proc_alive, ha, persisted_before_provision]
            · rw [Bool.not_eq_true] at ha
              simp [applyEvent, delete_fn, hf, clean_up_subprocess, hcs,
                proc_alive, ha, persisted_before_provision]

/-- C8: a delete event for an unregistered identifier is a no-op (no
status item, no error, no state change); for a registered identifier the
handler stops the supervised process, removes the on-disk config
(tolerating a missing file — the theorem holds for every world, with or
without the file), releases logging, and removes the registry entry,
never touching the status queue. -/
theorem c8_delete_behavior (w : World) (name nspace : String) :
    (alist_lookup (name, nspace) w.ray_clusters = none →
        delete_fn w name nspace = (w, []))
    ∧ ∀ c, alist_lookup (name, nspace) w.ray_clusters = some c →
        alist_lookup (name, nspace) (delete_fn w name nspace).1.ray_clusters
            = none
        ∧ alist_lookup c.cid (delete_fn w name nspace).1.disk = none
        ∧ (delete_fn w name nspace).1.cluster_status_q = w.cluster_status_q
        ∧ Act.remove_logging c.cid ∈ (delete_fn w name nspace).2
        ∧ ∀ p, c.subprocess = some p →
            proc_alive (delete_fn w name nspace).1 p = false := by
  constructor
  · intro h
    simp [delete_fn, h]
  · intro c hc
    rcases hcs : c.subprocess with _ | p
    · refine ⟨?_, ?_, ?_, ?_, ?_⟩
      · simp [delete_fn, hc, clean_up_subprocess, hcs, alist_lookup_erase_self]
      · simp [delete_fn, hc, clean_up_subprocess, hcs, alist_lookup_erase_self]
      · simp [delete_fn, hc, clean_up_subprocess, hcs]
      · simp [delete_fn, hc, clean_up_subprocess, hcs]
      · intro p hp
        cases hp
    · by_cases ha : alive_in w.procs p = true
      · refine ⟨?_, ?_, ?_, ?_, ?_⟩
        · simp [delete_fn, hc, clean_up_subprocess, hcs, proc_alive, ha,
            alist_lookup_erase_self]
        · simp [delete_fn, hc, clean_up_subprocess, hcs, proc_alive, ha,
            alist_lookup_erase_self]
        · simp [delete_fn, hc, clean_up_subprocess, hcs, proc_alive, ha]
        · simp [delete_fn, hc, clean_up_subprocess, hcs, proc_alive, ha]
        · intro p' hp'
          injection hp' with hpp
          subst hpp
          simp [delete_fn, hc, clean_up_subprocess, hcs, proc_alive, ha,
            alive_in_kill_self]
      · rw [Bool.not_eq_true] at ha
        refine ⟨?_, ?_, ?_, ?_, ?_⟩
        · simp [delete_fn, hc, clean_up_subprocess, hcs, proc_alive, ha,
            alist_lookup_erase_self]
        · simp [delete_fn, hc, clean_up_subprocess, hcs, proc_alive, ha,
            alist_lookup_erase_self]
        · simp [delete_fn, hc, clean_up_subprocess, hcs, proc_alive, ha]
        · simp [delete_fn, hc, clean_up_subprocess, hcs, proc_alive, ha]
        · intro p' hp'
          injection hp' with hpp
          subst hpp
          simp [delete_fn, hc, clean_up_subprocess, hcs, proc_alive, ha]

/-- Witness for C8 at a world with a registered supervisor, a live
subprocess, and an on-disk config, and at the empty world for the no-op
direction. -/
theorem c8_delete_behavior_witness :
    (delete_fn init_world "foo" "ns1" = (init_world, [])
     ∧ alist_lookup ("foo", "ns1")
         (delete_fn sample_world "foo" "ns1").1.ray_clusters = none
     ∧ alist_lookup ("foo", "ns1") (delete_fn sample_world "foo" "ns1").1.disk
         = none
     ∧ (delete_fn sample_world "foo" "ns1").1.cluster_status_q
         = sample_world.cluster_status_q
     ∧ Act.remove_logging ("foo", "ns1") ∈ (delete_fn sample_world "foo" "ns1").2
     ∧ proc_alive (delete_fn sample_world "foo" "ns1").1 0 = false) := by
  have h := (c8_delete_behavior sample_world "foo" "ns1").2 sample_supervisor
    (by decide)
  exact ⟨(c8_delete_behavior init_world "foo" "ns1").1 rfl, h.1, h.2.1, h.2.2.1,
    h.2.2.2.1, h.2.2.2.2 0 rfl⟩

/-- C9: a missing status object or a missing `autoscalerRetries` field
is read as 0 on either body (the defaulting equations hold for every
body), and for every update event with both generations present — for
every registry state, every pair of bodies, and whether or not the
supervised work succeeds — the handler launches a subprocess with
`restart_ray = true` exactly when the new body's (defaulted) retry
counter is strictly greater than the old body's (defaulted) one; in
particular a new body whose field is absent (reading 0) never forces a
restart. -/
theorem c9_missing_retries_default (w : World) (old new : Body)
    (name nspace : String) (work_ok : Bool) (g g' : Nat)
    (hold : old.metadata.generation = some g)
    (hnew : new.metadata.generation = some g') :
    (∀ b : Body, b.status = none → autoscaler_retries_of b = 0)
    ∧ (∀ b : Body, b.status = some { autoscalerRetries := none } →
        autoscaler_retries_of b = 0)
    ∧ (∀ (b : Body) (r : Nat),
        b.status = some { autoscalerRetries := some r } →
          autoscaler_retries_of b = r)
    ∧ ((update_fn w old new name nspace work_ok).toOption.map
          (fun res => res.2.any Act.spawn_restart))
        = some
            (decide (autoscaler_retries_of old < autoscaler_retries_of new)) := by
  refine ⟨?_, ?_, ?_, ?_⟩
  · intro b hb
    simp [autoscaler_retries_of, hb]
  · intro b hb
    simp [autoscaler_retries_of, hb]
  · intro b r hb
    simp [autoscaler_retries_of, hb]
  · by_cases hb :
        (decide (g' > g)
          || decide (autoscaler_retries_of new > autoscaler_retries_of old))
          = true
    · cases hf : alist_lookup (name, nspace) w.ray_clusters with
      | none =>
          cases work_ok with
          | true =>
              simp [update_fn, hold, hnew, hb, hf, put_status,
                clean_up_subprocess, RayCluster.init, create_or_update,
                do_in_subprocess, run_child, Act.spawn_restart,
                Except.toOption]
          | false =>
              simp [update_fn, hold, hnew, hb, hf, put_status,
                clean_up_subprocess, RayCluster.init, create_or_update,
                do_in_subprocess, run_child, Act.spawn_restart,
                Except.toOption]
      | some c =>
          rcases hcs : c.subprocess with _ | p
          · cases work_ok with
            | true =>
                simp [update_fn, hold, hnew, hb, hf, put_status,
                  clean_up_subprocess, hcs, create_or_update,
                  do_in_subprocess, run_child, Act.spawn_restart,
                  Except.toOption]
            | false =>
                simp [update_fn, hold, hnew, hb, hf, put_status,
                  clean_up_subprocess, hcs, create_or_update,
                  do_in_subprocess, run_child, Act.spawn_restart,
                  Except.toOption]
          · by_cases ha : alive_in w.procs p = true
            · cases work_ok with
              | true =>
                  simp [update_fn, hold, hnew, hb, hf, put_status,
                    clean_up_subprocess, hcs, proc_alive, ha,
                    alive_in_kill_self, create_or_update, do_in_subprocess,
                    run_child, Act.spawn_restart, Except.toOption]
              | false =>
                  simp [update_fn, hold, hnew, hb, hf, put_status,
                    clean_up_subprocess, hcs, proc_alive, ha,
                    alive_in_kill_self, create_or_update, do_in_subprocess,
                    run_child, Act.spawn_restart, Except.toOption]
            · rw [Bool.not_eq_true] at ha
              cases work_ok with
              | true =>
                  simp [update_fn, hold, hnew, hb, hf, put_status,
                    clean_up_subprocess, hcs, proc_alive, ha,
                    create_or_update, do_in_subprocess, run_child,
                    Act.spawn_restart, Except.toOption]
              | false =>
                  simp [update_fn, hold, hnew, hb, hf, put_status,
                    clean_up_subprocess, hcs, proc_alive, ha,
                    create_or_update, do_in_subprocess, run_child,
                    Act.spawn_restart, Except.toOption]
    · rw [Bool.not_eq_true] at hb
      simp only [Bool.or_eq_false_iff, decide_eq_false_iff_not] at hb
      simp [update_fn, hold, hnew, hb.1, hb.2, Except.toOption]

/-- Witness for C9: a missing old status object reads as retries 0, and
against a registered supervisor with a live process, a new body carrying
retries 1 makes the handler spawn with `restart_ray = true`. -/
theorem c9_missing_retries_default_witness :
    autoscaler_retries_of (sample_body 1) = 0
    ∧ ((update_fn sample_world (sample_body 1) (sample_body_retries 1 1)
          "foo" "ns1" true).toOption.map
          (fun res => res.2.any Act.spawn_restart)) = some true := by
  have h := c9_missing_retries_default sample_world (sample_body 1)
    (sample_body_retries 1 1) "foo" "ns1" true 1 1 rfl rfl
  exact ⟨h.1 (sample_body 1) rfl, h.2.2.2⟩

/-- C4: on every update whose generation or retry counter strictly
increased, for every registry state, the handler uses the supervisor it
looks up — or the one it creates when the identifier is absent — and the
trace is exactly: enqueue `Updating`; stop any existing supervised
process (the `clean_up_subprocess` actions, empty when no live process
exists); spawn via `createOrUpdate` with `restart_ray` equal to whether
the retry counter increased (true on a retry bump alone, false on a
generation bump alone); enqueue `Running`; then the supervised process's
own actions.  The registry afterwards holds that supervisor with its
configuration replaced by the new body's, tracking the fresh
subprocess. -/
theorem c4_update_relaunch (w : World) (old new : Body) (name nspace : String)
    (g g' : Nat)
    (hold : old.metadata.generation = some g)
    (hnew : new.metadata.generation = some g')
    (hbump : g < g' ∨ autoscaler_retries_of old < autoscaler_retries_of new) :
    ((update_fn w old new name nspace true).toOption.map (fun res => res.2))
      = some
        (Act.put name nspace Phase.Updating
          :: (clean_up_subprocess
                ((alist_lookup (name, nspace) w.ray_clusters).getD
                  (RayCluster.init new.config)) w).2.2
          ++ [Act.spawn_subprocess
                ((alist_lookup (name, nspace) w.ray_clusters).getD
                  (RayCluster.init new.config)).cid w.next_pid
                (decide
                  (autoscaler_retries_of old < autoscaler_retries_of new)),
              Act.put name nspace Phase.Running,
              Act.write_config
                ((alist_lookup (name, nspace) w.ray_clusters).getD
                  (RayCluster.init new.config)).cid new.config,
              Act.provision
                ((alist_lookup (name, nspace) w.ray_clusters).getD
                  (RayCluster.init new.config)).cid
                (!decide
                  (autoscaler_retries_of old < autoscaler_retries_of new)),
              Act.write_config
                ((alist_lookup (name, nspace) w.ray_clusters).getD
                  (RayCluster.init new.config)).cid
                (provision_result new.config),
              Act.run_monitor
                ((alist_lookup (name, nspace) w.ray_clusters).getD
                  (RayCluster.init new.config)).cid])
    ∧ ((update_fn w old new name nspace true).toOption.map
          (fun res => alist_lookup (name, nspace) res.1.ray_clusters))
        = some (some
            { config := new.config,
              name := ((alist_lookup (name, nspace) w.ray_clusters).getD
                (RayCluster.init new.config)).name,
              nspace := ((alist_lookup (name, nspace) w.ray_clusters).getD
                (RayCluster.init new.config)).nspace,
              subprocess := some w.next_pid,
              monitor_stop_event :=
                (clean_up_subprocess
                  ((alist_lookup (name, nspace) w.ray_clusters).getD
                    (RayCluster.init new.config)) w).1.monitor_stop_event })
    ∧ ((update_fn w old new name nspace true).toOption.map
          (fun res => res.1.cluster_status_q))
        = some (w.cluster_status_q ++
            [(name, nspace, Phase.Updating), (name, nspace, Phase.Running)]) := by
  have hcond :
      (decide (g < g')
        || decide (autoscaler_retries_of old < autoscaler_retries_of new))
        = true := by
    rcases hbump with h | h <;> simp [h]
  cases hf : alist_lookup (name, nspace) w.ray_clusters with
  | none =>
      refine ⟨?_, ?_, ?_⟩ <;>
        simp [update_fn, hold, hnew, hcond, hf, put_status,
          clean_up_subprocess, RayCluster.init, create_or_update,
          do_in_subprocess, run_child, RayCluster.cid, Except.toOption,
          alist_lookup_insert_self]
  | some c =>
      rcases hcs : c.subprocess with _ | p
      · refine ⟨?_, ?_, ?_⟩ <;>
          simp [update_fn, hold, hnew, hcond, hf, put_status,
            clean_up_subprocess, hcs, create_or_update, do_in_subprocess,
            run_child, RayCluster.cid, Except.toOption,
            alist_lookup_insert_self]
      · by_cases ha : alive_in w.procs p = true
        · refine ⟨?_, ?_, ?_⟩ <;>
            simp [update_fn, hold, hnew, hcond, hf, put_status,
              clean_up_subprocess, hcs, proc_alive, ha, alive_in_kill_self,
              create_or_update, do_in_subprocess, run_child, RayCluster.cid,
              Except.toOption, alist_lookup_insert_self]
        · rw [Bool.not_eq_true] at ha
          refine ⟨?_, ?_, ?_⟩ <;>
            simp [update_fn, hold, hnew, hcond, hf, put_status,
              clean_up_subprocess, hcs, proc_alive, ha, create_or_update,
              do_in_subprocess, run_child, RayCluster.cid, Except.toOption,
              alist_lookup_insert_self]

/-- Witness for C4 at a generation bump (1 to 2) with retries unchanged
against a registered supervisor with a live process: the process is
stopped and `createOrUpdate` runs with `restart_ray = false`. -/
theorem c4_update_relaunch_witness :
    ((update_fn sample_world (sample_body 1) (sample_body2 2) "foo" "ns1"
        true).toOption.map (fun res => res.2))
      = some
        [Act.put "foo" "ns1" Phase.Updating,
         Act.set_stop_event ("foo", "ns1"), Act.join_subprocess ("foo", "ns1") 0,
         Act.clear_stop_event ("foo", "ns1"),
         Act.spawn_subprocess ("foo", "ns1") 1 false,
         Act.put "foo" "ns1" Phase.Running,
         Act.write_config ("foo", "ns1") sample_config2,
         Act.provision ("foo", "ns1") true,
         Act.write_config ("foo", "ns1") sample_config2,
         Act.run_monitor ("foo", "ns1")]
    ∧ ((update_fn sample_world (sample_body 1) (sample_body2 2) "foo" "ns1"
          true).toOption.map
          (fun res => alist_lookup ("foo", "ns1") res.1.ray_clusters))
        = some (some
            { config := sample_config2, name := "foo", nspace := "ns1",
              subprocess := some 1, monitor_stop_event := false })
    ∧ ((update_fn sample_world (sample_body 1) (sample_body2 2) "foo" "ns1"
          true).toOption.map (fun res => res.1.cluster_status_q))
        = some (sample_world.cluster_status_q ++
            [("foo", "ns1", Phase.Updating), ("foo", "ns1", Phase.Running)]) :=
  c4_update_relaunch sample_world (sample_body 1) (sample_body2 2) "foo" "ns1"
    1 2 rfl rfl (Or.inl (by decide))

theorem lookup_applyEvent (w : World) (e : Event) (k : ClusterId) :
    (alist_lookup k (applyEvent w e).1.ray_clusters).isSome
      = registered_step ((alist_lookup k w.ray_clusters).isSome) e k := by
  cases e with
  | create body name nspace redis_ok work_ok =>
      cases redis_ok with
      | false => simp [applyEvent, create_fn, registered_step]
      | true =>
          by_cases hk : (name, nspace) = k
          · subst hk
            simp [applyEvent, create_fn, put_status, create_or_update,
              do_in_subprocess, clean_up_subprocess, RayCluster.init,
              run_child_ray_clusters, registered_step,
              alist_lookup_insert_self]
          · simp [applyEvent, create_fn, put_status, create_or_update,
              do_in_subprocess, clean_up_subprocess, RayCluster.init,
              run_child_ray_clusters, registered_step, hk,
              alist_lookup_insert_ne (Ne.symm hk)]
  | update old new name nspace work_ok =>
      cases hog : old.metadata.generation with
      | none => simp [applyEvent, update_fn, hog, registered_step, update_taken]
      | some g =>
      cases hng : new.metadata.generation with
      | none =>
          simp [applyEvent, update_fn, hog, hng, registered_step, update_taken]
      | some g' =>
      by_cases hb :
          (decide (g' > g)
            || decide (autoscaler_retries_of new > autoscaler_retries_of old))
            = true
      · cases hf : alist_lookup (name, nspace) w.ray_clusters with
        | none =>
            by_cases hk : (name, nspace) = k
            · subst hk
              simp [applyEvent, update_fn, hog, hng, hb, hf, put_status,
                create_or_update, do_in_subprocess, clean_up_subprocess,
                RayCluster.init, run_child_ray_clusters, registered_step,
                update_taken, alist_lookup_insert_self]
            · simp [applyEvent, update_fn, hog, hng, hb, hf, put_status,
                create_or_update, do_in_subprocess, clean_up_subprocess,
                RayCluster.init, run_child_ray_clusters, registered_step,
                update_taken, hk, alist_lookup_insert_ne (Ne.symm hk)]
        | some c =>
            by_cases hk : (name, nspace) = k
            · subst hk
              simp [applyEvent, update_fn, hog, hng, hb, hf, put_status,
                create_or_update, do_in_subprocess,
                clean_up_subprocess_world_ray_clusters,
                run_child_ray_clusters, registered_step, update_taken,
                alist_lookup_insert_self]
            · simp [applyEvent, update_fn, hog, hng, hb, hf, put_status,
                create_or_update, do_in_subprocess,
                clean_up_subprocess_world_ray_clusters,
                run_child_ray_clusters, registered_step, update_taken, hk,
                alist_lookup_insert_ne (Ne.symm hk)]
      · rw [Bool.not_eq_true] at hb
        simp [applyEvent, update_fn, hog, hng, hb, registered_step,
          update_taken]
  | delete name nspace =>
      cases hf : alist_lookup (name, nspace) w.ray_clusters with
      | none =>
          by_cases hk : (name, nspace) = k
          · subst hk
            simp [applyEvent, delete_fn, hf, registered_step]
          · simp [applyEvent, delete_fn, hf, registered_step, hk]
      | some c =>
          by_cases hk : (name, nspace) = k
          · subst hk
            simp [applyEvent, delete_fn, hf, registered_step,
              clean_up_subprocess_world_ray_clusters, alist_lookup_erase_self]
          · simp [applyEvent, delete_fn, hf, registered_step, hk,
              clean_up_subprocess_world_ray_clusters,
              alist_lookup_erase_ne (Ne.symm hk)]

theorem runEvents_lookup (es : List Event) (w : World) (k : ClusterId) :
    (alist_lookup k (runEvents w es).ray_clusters).isSome
      = es.foldl (fun b e => registered_step b e k)
          ((alist_lookup k w.ray_clusters).isSome) := by
  induction es generalizing w with
  | nil => rfl
  | cons e t ih =>
      rw [runEvents, List.foldl_cons, ih, lookup_applyEvent]

/-- C7 counterexample: a single update event with a generation bump for a
never-created identifier inserts a supervisor into the registry, so the
registry can contain an identifier for which no create event was ever
observed. -/
theorem c7_counterexample :
    (alist_lookup ("foo", "ns1")
        (World.ray_clusters
          (runEvents init_world
            [Event.update (sample_body 1) (sample_body2 2) "foo" "ns1"
              true]))).isSome = true
    ∧ List.all
        [Event.update (sample_body 1) (sample_body2 2) "foo" "ns1" true]
        (fun e => !e.is_create) = true := by
  constructor
  · decide
  · decide

/-- C7 amended: for every event sequence, the registry contains a
supervisor under identifier K iff a create event for K that passed the
precondition check, or an update event for K whose generation or retry
counter strictly increased, has been observed, and no delete event for K
has since been processed. -/
theorem c7_registry_membership (es : List Event) (k : ClusterId) :
    (alist_lookup k (runEvents init_world es).ray_clusters).isSome
      = registered_model es k := by
  rw [registered_model, runEvents_lookup]
  rfl

theorem body_coherent_eq {b : Body} {name nspace : String}
    (h : body_coherent b name nspace = true) :
    b.config.cluster_name = name ∧ b.config.provider_namespace = nspace := by
  simpa [body_coherent] using h

theorem Inv_init : Inv init_world := by
  refine ⟨?_, ?_, ?_⟩
  · intro p k h
    cases h
  · intro e he
    cases he
  · intro e he
    cases he

theorem Inv_run_child {j : ChildJob} {ok : Bool} {w : World} (hInv : Inv w) :
    Inv (run_child j ok w).1 := by
  cases ok with
  | true =>
      have hprocs : (run_child j true w).1.procs = w.procs := rfl
      have hreg : (run_child j true w).1.ray_clusters = w.ray_clusters := rfl
      have hnp : (run_child j true w).1.next_pid = w.next_pid := rfl
      refine ⟨?_, ?_, ?_⟩
      · intro p k hmem
        rw [hprocs] at hmem
        rw [hreg]
        exact hInv.1 p k hmem
      · intro e he
        rw [hprocs] at he
        rw [hnp]
        exact hInv.2.1 e he
      · intro e he
        rw [hreg] at he
        exact hInv.2.2 e he
  | false =>
      have hprocs : (run_child j false w).1.procs = kill_proc w.procs j.pid := rfl
      have hreg : (run_child j false w).1.ray_clusters = w.ray_clusters := rfl
      have hnp : (run_child j false w).1.next_pid = w.next_pid := rfl
      refine ⟨?_, ?_, ?_⟩
      · intro p k hmem
        rw [hprocs] at hmem
        rw [hreg]
        exact hInv.1 p k (mem_kill_proc_alive hmem).2
      · intro e he
        rw [hprocs] at he
        rw [hnp]
        rcases mem_kill_proc_pid he with ⟨b, hb⟩
        exact hInv.2.1 (e.1, e.2.1, b) hb
      · intro e he
        rw [hreg] at he
        exact hInv.2.2 e he

theorem Inv_of_projections {w' w : World} (hInv : Inv w) (k : ClusterId)
    (c3 : RayCluster)
    (hsub : c3.subprocess = some w.next_pid)
    (hlk : alist_lookup k w'.ray_clusters = some c3)
    (hlk_ne : ∀ j, j ≠ k →
        alist_lookup j w'.ray_clusters = alist_lookup j w.ray_clusters)
    (hcid : ∀ e ∈ w'.ray_clusters, RayCluster.cid e.2 = e.1)
    (hnext : w'.next_pid = w.next_pid + 1)
    (hpA : ∀ q j, (q, j, true) ∈ w'.procs →
        (q = w.next_pid ∧ j = k) ∨ ((q, j, true) ∈ w.procs ∧ j ≠ k))
    (hpB : ∀ e ∈ w'.procs, e.1 < w.next_pid + 1) :
    Inv w' := by
  refine ⟨?_, ?_, ?_⟩
  · intro p j hmem
    rcases hpA p j hmem with ⟨hq, hj⟩ | ⟨hm, hj⟩
    · subst hq
      subst hj
      exact ⟨c3, hlk, hsub⟩
    · rcases hInv.1 p j hm with ⟨c', hc', hs'⟩
      refine ⟨c', ?_, hs'⟩
      rw [hlk_ne j hj]
      exact hc'
  · intro e he
    rw [hnext]
    exact hpB e he
  · exact hcid

theorem Inv_deleted {w' w : World} (hInv : Inv w) (k : ClusterId)
    (hlk_ne : ∀ j, j ≠ k →
        alist_lookup j w'.ray_clusters = alist_lookup j w.ray_clusters)
    (hcid : ∀ e ∈ w'.ray_clusters, RayCluster.cid e.2 = e.1)
    (hnext : w'.next_pid = w.next_pid)
    (hpA : ∀ q j, (q, j, true) ∈ w'.procs → (q, j, true) ∈ w.procs ∧ j ≠ k)
    (hpB : ∀ e ∈ w'.procs, e.1 < w.next_pid) :
    Inv w' := by
  refine ⟨?_, ?_, ?_⟩
  · intro p j hmem
    rcases hpA p j hmem with ⟨hm, hj⟩
    rcases hInv.1 p j hm with ⟨c', hc', hs'⟩
    refine ⟨c', ?_, hs'⟩
    rw [hlk_ne j hj]
    exact hc'
  · intro e he
    rw [hnext]
    exact hpB e he
  · exact hcid

theorem spawn_procs_hpA {w : World} {k kk : ClusterId}
    {rest procs' : List (Nat × ClusterId × Bool)}
    (hdisj : procs' = (w.next_pid, kk, true) :: rest
      ∨ procs' = kill_proc ((w.next_pid, kk, true) :: rest) w.next_pid)
    (hkk : kk = k)
    (hrest : ∀ q j, (q, j, true) ∈ rest → (q, j, true) ∈ w.procs ∧ j ≠ k) :
    ∀ q j, (q, j, true) ∈ procs' →
      (q = w.next_pid ∧ j = k) ∨ ((q, j, true) ∈ w.procs ∧ j ≠ k) := by
  intro q j hm
  have h' : (q, j, true) ∈ (w.next_pid, kk, true) :: rest := by
    rcases hdisj with h | h
    · rw [h] at hm
      exact hm
    · rw [h] at hm
      exact (mem_kill_proc_alive hm).2
  rcases List.mem_cons.mp h' with h'' | h''
  · left
    simp only [Prod.mk.injEq] at h''
    exact ⟨h''.1, hkk ▸ h''.2.1⟩
  · exact Or.inr (hrest q j h'')

theorem spawn_procs_hpB {w : World} {kk : ClusterId}
    {rest procs' : List (Nat × ClusterId × Bool)}
    (hdisj : procs' = (w.next_pid, kk, true) :: rest
      ∨ procs' = kill_proc ((w.next_pid, kk, true) :: rest) w.next_pid)
    (hrest : ∀ e ∈ rest, e.1 < w.next_pid) :
    ∀ e ∈ procs', e.1 < w.next_pid + 1 := by
  intro e he
  have h' : ∃ b, (e.1, e.2.1, b) ∈ (w.next_pid, kk, true) :: rest := by
    rcases hdisj with h | h
    · rw [h] at he
      exact ⟨e.2.2, he⟩
    · rw [h] at he
      exact mem_kill_proc_pid he
  rcases h' with ⟨b, hb⟩
  rcases List.mem_cons.mp hb with h'' | h''
  · simp only [Prod.mk.injEq] at h''
    rw [h''.1]
    exact Nat.lt_succ_self _
  · exact Nat.lt_succ_of_lt (hrest (e.1, e.2.1, b) h'')

theorem rest_facts_fresh {w : World} (hInv : Inv w) {k : ClusterId}
    (hfresh : alist_lookup k w.ray_clusters = none) :
    ∀ q j, (q, j, true) ∈ w.procs → (q, j, true) ∈ w.procs ∧ j ≠ k := by
  intro q j hm
  refine ⟨hm, ?_⟩
  intro hj
  rcases hInv.1 q j hm with ⟨c', hc', _⟩
  rw [hj, hfresh] at hc'
  cases hc'

theorem rest_facts_none {w : World} (hInv : Inv w) {k : ClusterId}
    {c : RayCluster} (hf : alist_lookup k w.ray_clusters = some c)
    (hcs : c.subprocess = none) :
    ∀ q j, (q, j, true) ∈ w.procs → (q, j, true) ∈ w.procs ∧ j ≠ k := by
  intro q j hm
  refine ⟨hm, ?_⟩
  intro hj
  rcases hInv.1 q j hm with ⟨c', hc', hs'⟩
  rw [hj, hf] at hc'
  injection hc' with hcc
  subst hcc
  rw [hcs] at hs'
  cases hs'

theorem rest_facts_dead {w : World} (hInv : Inv w) {k : ClusterId}
    {c : RayCluster} {pold : Nat}
    (hf : alist_lookup k w.ray_clusters = some c)
    (hcs : c.subprocess = some pold)
    (ha : alive_in w.procs pold = false) :
    ∀ q j, (q, j, true) ∈ w.procs → (q, j, true) ∈ w.procs ∧ j ≠ k := by
  intro q j hm
  refine ⟨hm, ?_⟩
  intro hj
  rcases hInv.1 q j hm with ⟨c', hc', hs'⟩
  rw [hj, hf] at hc'
  injection hc' with hcc
  subst hcc
  rw [hcs] at hs'
  injection hs' with hpq
  subst hpq
  rw [alive_in_of_mem hm] at ha
  cases ha

theorem rest_facts_alive {w : World} (hInv : Inv w) {k : ClusterId}
    {c : RayCluster} {pold : Nat}
    (hf : alist_lookup k w.ray_clusters = some c)
    (hcs : c.subprocess = some pold) :
    ∀ q j, (q, j, true) ∈ kill_proc w.procs pold →
      (q, j, true) ∈ w.procs ∧ j ≠ k := by
  intro q j hm
  rcases mem_kill_proc_alive hm with ⟨hne, hm'⟩
  refine ⟨hm', ?_⟩
  intro hj
  rcases hInv.1 q j hm' with ⟨c', hc', hs'⟩
  rw [hj, hf] at hc'
  injection hc' with hcc
  subst hcc
  rw [hcs] at hs'
  injection hs' with hpq
  exact hne hpq.symm

theorem kill_bound {w : World} (hInv : Inv w) (pold : Nat) :
    ∀ e ∈ kill_proc w.procs pold, e.1 < w.next_pid := by
  intro e he
  rcases mem_kill_proc_pid he with ⟨b, hb⟩
  exact hInv.2.1 (e.1, e.2.1, b) hb

theorem hcid_fresh {w : World} (hInv : Inv w) {k : ClusterId}
    {c0 c3 : RayCluster} (hc0 : RayCluster.cid c0 = k)
    (hc3 : RayCluster.cid c3 = k) :
    ∀ e ∈ alist_insert k c3 (alist_insert k c0 w.ray_clusters),
      RayCluster.cid e.2 = e.1 := by
  intro e he
  rcases alist_mem_insert he with h | h
  · rw [h]
    exact hc3
  · rcases alist_mem_insert h with h2 | h2
    · rw [h2]
      exact hc0
    · exact hInv.2.2 e h2

theorem hcid_existing {w : World} (hInv : Inv w) {k : ClusterId}
    {c c3 : RayCluster} (hf : alist_lookup k w.ray_clusters = some c)
    (hn : c3.name = c.name) (hns : c3.nspace = c.nspace) :
    ∀ e ∈ alist_insert k c3 w.ray_clusters, RayCluster.cid e.2 = e.1 := by
  intro e he
  rcases alist_mem_insert he with h | h
  · rw [h]
    have hck := hInv.2.2 (k, c) (alist_lookup_mem hf)
    simp only [RayCluster.cid] at hck ⊢
    rw [hn, hns]
    exact hck
  · exact hInv.2.2 e h

theorem Inv_applyEvent (w : World) (e : Event) (hInv : Inv w)
    (he : event_ok w e = true) : Inv (applyEvent w e).1 := by
  cases e with
  | create body name nspace redis_ok work_ok =>
      simp only [event_ok, Bool.and_eq_true] at he
      obtain ⟨hcoh, hfreshb⟩ := he
      have hfresh : alist_lookup (name, nspace) w.ray_clusters = none :=
        Option.isNone_iff_eq_none.mp hfreshb
      obtain ⟨h1, h2⟩ := body_coherent_eq hcoh
      cases redis_ok with
      | false =>
          have hdec :
              (applyEvent w (Event.create body name nspace false work_ok)).1
                = w := by
            simp [applyEvent, create_fn]
          rw [hdec]
          exact hInv
      | true =>
          have hreg :
              (applyEvent w (Event.create body name nspace true work_ok)).1.ray_clusters
                = alist_insert (name, nspace)
                    { config := body.config, name := body.config.cluster_name,
                      nspace := body.config.provider_namespace,
                      subprocess := some w.next_pid,
                      monitor_stop_event := false }
                    (alist_insert (name, nspace)
                      { config := body.config,
                        name := body.config.cluster_name,
                        nspace := body.config.provider_namespace,
                        subprocess := none, monitor_stop_event := false }
                      w.ray_clusters) := by
            cases work_ok <;>
              simp [applyEvent, create_fn, put_status, create_or_update,
                do_in_subprocess, clean_up_subprocess, RayCluster.init,
                run_child]
          have hprocs :
              (applyEvent w (Event.create body name nspace true work_ok)).1.procs
                = (w.next_pid,
                    (body.config.cluster_name, body.config.provider_namespace),
                    true) :: w.procs
              ∨ (applyEvent w (Event.create body name nspace true work_ok)).1.procs
                = kill_proc
                    ((w.next_pid,
                      (body.config.cluster_name, body.config.provider_namespace),
                      true) :: w.procs) w.next_pid := by
            cases work_ok with
            | false =>
                right
                simp [applyEvent, create_fn, put_status, create_or_update,
                  do_in_subprocess, clean_up_subprocess, RayCluster.init,
                  run_child, RayCluster.cid]
            | true =>
                left
                simp [applyEvent, create_fn, put_status, create_or_update,
                  do_in_subprocess, clean_up_subprocess, RayCluster.init,
                  run_child, RayCluster.cid]
          have hnext :
              (applyEvent w (Event.create body name nspace true work_ok)).1.next_pid
                = w.next_pid + 1 := by
            cases work_ok <;>
              simp [applyEvent, create_fn, put_status, create_or_update,
                do_in_subprocess, clean_up_subprocess, RayCluster.init,
                run_child]
          refine Inv_of_projections hInv (name, nspace)
            { config := body.config, name := body.config.cluster_name,
              nspace := body.config.provider_namespace,
              subprocess := some w.next_pid, monitor_stop_event := false }
            rfl ?_ ?_ ?_ hnext ?_ ?_
          · rw [hreg]
            exact alist_lookup_insert_self _ _ _
          · intro j hj
            rw [hreg, alist_lookup_insert_ne hj, alist_lookup_insert_ne hj]
          · intro e' he'
            rw [hreg] at he'
            refine hcid_fresh hInv ?_ ?_ e' he'
            · simp [RayCluster.cid, h1, h2]
            · simp [RayCluster.cid, h1, h2]
          · exact spawn_procs_hpA hprocs (by rw [h1, h2])
              (rest_facts_fresh hInv hfresh)
          · exact spawn_procs_hpB hprocs (fun e' he' => hInv.2.1 e' he')
  | update old new name nspace work_ok =>
      simp only [event_ok] at he
      obtain ⟨h1, h2⟩ := body_coherent_eq he
      cases hog : old.metadata.generation with
      | none =>
          have hdec :
              (applyEvent w (Event.update old new name nspace work_ok)).1 = w := by
            simp [applyEvent, update_fn, hog]
          rw [hdec]
          exact hInv
      | some g =>
      cases hng : new.metadata.generation with
      | none =>
          have hdec :
              (applyEvent w (Event.update old new name nspace work_ok)).1 = w := by
            simp [applyEvent, update_fn, hog, hng]
          rw [hdec]
          exact hInv
      | some g' =>
      by_cases hb :
          (decide (g' > g)
            || decide (autoscaler_retries_of new > autoscaler_retries_of old))
            = true
      · cases hf : alist_lookup (name, nspace) w.ray_clusters with
        | none =>
            have hreg :
                (applyEvent w (Event.update old new name nspace work_ok)).1.ray_clusters
                  = alist_insert (name, nspace)
                      { config := new.config, name := new.config.cluster_name,
                        nspace := new.config.provider_namespace,
                        subprocess := some w.next_pid,
                        monitor_stop_event := false }
                      (alist_insert (name, nspace)
                        { config := new.config,
                          name := new.config.cluster_name,
                          nspace := new.config.provider_namespace,
                          subprocess := none, monitor_stop_event := false }
                        w.ray_clusters) := by
              cases work_ok <;>
                simp [applyEvent, update_fn, hog, hng, hb, hf, put_status,
                  create_or_update, do_in_subprocess, clean_up_subprocess,
                  RayCluster.init, run_child]
            have hprocs :
                (applyEvent w (Event.update old new name nspace work_ok)).1.procs
                  = (w.next_pid,
                      (new.config.cluster_name, new.config.provider_namespace),
                      true) :: w.procs
                ∨ (applyEvent w (Event.update old new name nspace work_ok)).1.procs
                  = kill_proc
                      ((w.next_pid,
                        (new.config.cluster_name,
                          new.config.provider_namespace),
                        true) :: w.procs) w.next_pid := by
              cases work_ok with
              | false =>
                  right
                  simp [applyEvent, update_fn, hog, hng, hb, hf, put_status,
                    create_or_update, do_in_subprocess, clean_up_subprocess,
                    RayCluster.init, run_child, RayCluster.cid]
              | true =>
                  left
                  simp [applyEvent, update_fn, hog, hng, hb, hf, put_status,
                    create_or_update, do_in_subprocess, clean_up_subprocess,
                    RayCluster.init, run_child, RayCluster.cid]
            have hnext :
                (applyEvent w (Event.update old new name nspace work_ok)).1.next_pid
                  = w.next_pid + 1 := by
              cases work_ok <;>
                simp [applyEvent, update_fn, hog, hng, hb, hf, put_status,
                  create_or_update, do_in_subprocess, clean_up_subprocess,
                  RayCluster.init, run_child]
            refine Inv_of_projections hInv (name, nspace)
              { config := new.config, name := new.config.cluster_name,
                nspace := new.config.provider_namespace,
                subprocess := some w.next_pid, monitor_stop_event := false }
              rfl ?_ ?_ ?_ hnext ?_ ?_
            · rw [hreg]
              exact alist_lookup_insert_self _ _ _
            · intro j hj
              rw [hreg, alist_lookup_insert_ne hj, alist_lookup_insert_ne hj]
            · intro e' he'
              rw [hreg] at he'
              refine hcid_fresh hInv ?_ ?_ e' he'
              · simp [RayCluster.cid, h1, h2]
              · simp [RayCluster.cid, h1, h2]
            · exact spawn_procs_hpA hprocs (by rw [h1, h2])
                (rest_facts_fresh hInv hf)
            · exact spawn_procs_hpB hprocs (fun e' he' => hInv.2.1 e' he')
        | some c =>
            have hck : c.name = name ∧ c.nspace = nspace := by
              have := hInv.2.2 ((name, nspace), c) (alist_lookup_mem hf)
              simpa [RayCluster.cid, Prod.ext_iff] using this
            rcases hcs : c.subprocess with _ | pold
            · have hreg :
                  (applyEvent w (Event.update old new name nspace work_ok)).1.ray_clusters
                    = alist_insert (name, nspace)
                        { config := new.config, name := c.name,
                          nspace := c.nspace, subprocess := some w.next_pid,
                          monitor_stop_event := c.monitor_stop_event }
                        w.ray_clusters := by
                cases work_ok <;>
                  simp [applyEvent, update_fn, hog, hng, hb, hf, put_status,
                    create_or_update, do_in_subprocess, clean_up_subprocess,
                    hcs, run_child]
              have hprocs :
                  (applyEvent w (Event.update old new name nspace work_ok)).1.procs
                    = (w.next_pid, (c.name, c.nspace), true) :: w.procs
                  ∨ (applyEvent w (Event.update old new name nspace work_ok)).1.procs
                    = kill_proc
                        ((w.next_pid, (c.name, c.nspace), true) :: w.procs)
                        w.next_pid := by
                cases work_ok with
                | false =>
                    right
                    simp [applyEvent, update_fn, hog, hng, hb, hf, put_status,
                      create_or_update, do_in_subprocess, clean_up_subprocess,
                      hcs, run_child, RayCluster.cid]
                | true =>
                    left
                    simp [applyEvent, update_fn, hog, hng, hb, hf, put_status,
                      create_or_update, do_in_subprocess, clean_up_subprocess,
                      hcs, run_child, RayCluster.cid]
              have hnext :
                  (applyEvent w (Event.update old new name nspace work_ok)).1.next_pid
                    = w.next_pid + 1 := by
                cases work_ok <;>
                  simp [applyEvent, update_fn, hog, hng, hb, hf, put_status,
                    create_or_update, do_in_subprocess, clean_up_subprocess,
                    hcs, run_child]
              refine Inv_of_projections hInv (name, nspace)
                { config := new.config, name := c.name, nspace := c.nspace,
                  subprocess := some w.next_pid,
                  monitor_stop_event := c.monitor_stop_event }
                rfl ?_ ?_ ?_ hnext ?_ ?_
              · rw [hreg]
                exact alist_lookup_insert_self _ _ _
              · intro j hj
                rw [hreg, alist_lookup_insert_ne hj]
              · intro e' he'
                rw [hreg] at he'
                exact @hcid_existing w hInv (name, nspace) c
                  { config := new.config, name := c.name, nspace := c.nspace,
                    subprocess := some w.next_pid,
                    monitor_stop_event := c.monitor_stop_event }
                  hf rfl rfl e' he'
              · exact spawn_procs_hpA hprocs (by rw [hck.1, hck.2])
                  (rest_facts_none hInv hf hcs)
              · exact spawn_procs_hpB hprocs (fun e' he' => hInv.2.1 e' he')
            · by_cases ha : alive_in w.procs pold = true
              · have hreg :
                    (applyEvent w (Event.update old new name nspace work_ok)).1.ray_clusters
                      = alist_insert (name, nspace)
                          { config := new.config, name := c.name,
                            nspace := c.nspace, subprocess := some w.next_pid,
                            monitor_stop_event := false }
                          w.ray_clusters := by
                  cases work_ok <;>
                    simp [applyEvent, update_fn, hog, hng, hb, hf, put_status,
                      create_or_update, do_in_subprocess, clean_up_subprocess,
                      hcs, proc_alive, ha, alive_in_kill_self, run_child]
                have hprocs :
                    (applyEvent w (Event.update old new name nspace work_ok)).1.procs
                      = (w.next_pid, (c.name, c.nspace), true)
                          :: kill_proc w.procs pold
                    ∨ (applyEvent w (Event.update old new name nspace work_ok)).1.procs
                      = kill_proc
                          ((w.next_pid, (c.name, c.nspace), true)
                            :: kill_proc w.procs pold) w.next_pid := by
                  cases work_ok with
                  | false =>
                      right
                      simp [applyEvent, update_fn, hog, hng, hb, hf,
                        put_status, create_or_update, do_in_subprocess,
                        clean_up_subprocess, hcs, proc_alive, ha,
                        alive_in_kill_self, run_child, RayCluster.cid]
                  | true =>
                      left
                      simp [applyEvent, update_fn, hog, hng, hb, hf,
                        put_status, create_or_update, do_in_subprocess,
                        clean_up_subprocess, hcs, proc_alive, ha,
                        alive_in_kill_self, run_child, RayCluster.cid]
                have hnext :
                    (applyEvent w (Event.update old new name nspace work_ok)).1.next_pid
                      = w.next_pid + 1 := by
                  cases work_ok <;>
                    simp [applyEvent, update_fn, hog, hng, hb, hf, put_status,
                      create_or_update, do_in_subprocess, clean_up_subprocess,
                      hcs, proc_alive, ha, alive_in_kill_self, run_child]
                refine Inv_of_projections hInv (name, nspace)
                  { config := new.config, name := c.name, nspace := c.nspace,
                    subprocess := some w.next_pid,
                    monitor_stop_event := false }
                  rfl ?_ ?_ ?_ hnext ?_ ?_
                · rw [hreg]
                  exact alist_lookup_insert_self _ _ _
                · intro j hj
                  rw [hreg, alist_lookup_insert_ne hj]
                · intro e' he'
                  rw [hreg] at he'
                  exact @hcid_existing w hInv (name, nspace) c
                    { config := new.config, name := c.name, nspace := c.nspace,
                      subprocess := some w.next_pid,
                      monitor_stop_event := false }
                    hf rfl rfl e' he'
                · exact spawn_procs_hpA hprocs (by rw [hck.1, hck.2])
                    (rest_facts_alive hInv hf hcs)
                · exact spawn_procs_hpB hprocs (kill_bound hInv pold)
              · rw [Bool.not_eq_true] at ha
                have hreg :
                    (applyEvent w (Event.update old new name nspace work_ok)).1.ray_clusters
                      = alist_insert (name, nspace)
                          { config := new.config, name := c.name,
                            nspace := c.nspace, subprocess := some w.next_pid,
                            monitor_stop_event := c.monitor_stop_event }
                          w.ray_clusters := by
                  cases work_ok <;>
                    simp [applyEvent, update_fn, hog, hng, hb, hf, put_status,
                      create_or_update, do_in_subprocess, clean_up_subprocess,
                      hcs, proc_alive, ha, run_child]
                have hprocs :
                    (applyEvent w (Event.update old new name nspace work_ok)).1.procs
                      = (w.next_pid, (c.name, c.nspace), true) :: w.procs
                    ∨ (applyEvent w (Event.update old new name nspace work_ok)).1.procs
                      = kill_proc
                          ((w.next_pid, (c.name, c.nspace), true) :: w.procs)
                          w.next_pid := by
                  cases work_ok with
                  | false =>
                      right
                      simp [applyEvent, update_fn, hog, hng, hb, hf,
                        put_status, create_or_update, do_in_subprocess,
                        clean_up_subprocess, hcs, proc_alive, ha, run_child,
                        RayCluster.cid]
                  | true =>
                      left
                      simp [applyEvent, update_fn, hog, hng, hb, hf,
                        put_status, create_or_update, do_in_subprocess,
                        clean_up_subprocess, hcs, proc_alive, ha, run_child,
                        RayCluster.cid]
                have hnext :
                    (applyEvent w (Event.update old new name nspace work_ok)).1.next_pid
                      = w.next_pid + 1 := by
                  cases work_ok <;>
                    simp [applyEvent, update_fn, hog, hng, hb, hf, put_status,
                      create_or_update, do_in_subprocess, clean_up_subprocess,
                      hcs, proc_alive, ha, run_child]
                refine Inv_of_projections hInv (name, nspace)
                  { config := new.config, name := c.name, nspace := c.nspace,
                    subprocess := some w.next_pid,
                    monitor_stop_event := c.monitor_stop_event }
                  rfl ?_ ?_ ?_ hnext ?_ ?_
                · rw [hreg]
                  exact alist_lookup_insert_self _ _ _
                · intro j hj
                  rw [hreg, alist_lookup_insert_ne hj]
                · intro e' he'
                  rw [hreg] at he'
                  exact @hcid_existing w hInv (name, nspace) c
                    { config := new.config, name := c.name, nspace := c.nspace,
                      subprocess := some w.next_pid,
                      monitor_stop_event := c.monitor_stop_event }
                    hf rfl rfl e' he'
                · exact spawn_procs_hpA hprocs (by rw [hck.1, hck.2])
                    (rest_facts_dead hInv hf hcs ha)
                · exact spawn_procs_hpB hprocs (fun e' he' => hInv.2.1 e' he')
      · rw [Bool.not_eq_true] at hb
        have hdec :
            (applyEvent w (Event.update old new name nspace work_ok)).1 = w := by
          simp [applyEvent, update_fn, hog, hng, hb]
        rw [hdec]
        exact hInv
  | delete name nspace =>
      cases hf : alist_lookup (name, nspace) w.ray_clusters with
      | none =>
          have hdec : (applyEvent w (Event.delete name nspace)).1 = w := by
            simp [applyEvent, delete_fn, hf]
          rw [hdec]
          exact hInv
      | some c =>
          rcases hcs : c.subprocess with _ | pold
          · have hreg :
                (applyEvent w (Event.delete name nspace)).1.ray_clusters
                  = alist_erase (name, nspace) w.ray_clusters := by
              simp [applyEvent, delete_fn, hf, clean_up_subprocess, hcs]
            have hprocs :
                (applyEvent w (Event.delete name nspace)).1.procs = w.procs := by
              simp [applyEvent, delete_fn, hf, clean_up_subprocess, hcs]
            have hnext :
                (applyEvent w (Event.delete name nspace)).1.next_pid
                  = w.next_pid := by
              simp [applyEvent, delete_fn, hf, clean_up_subprocess, hcs]
            refine Inv_deleted hInv (name, nspace) ?_ ?_ hnext ?_ ?_
            · intro j hj
              rw [hreg, alist_lookup_erase_ne hj]
            · intro e' he'
              rw [hreg] at he'
              exact hInv.2.2 e' (alist_mem_erase he')
            · intro q j hm
              rw [hprocs] at hm
              exact rest_facts_none hInv hf hcs q j hm
            · intro e' he'
              rw [hprocs] at he'
              exact hInv.2.1 e' he'
          · by_cases ha : alive_in w.procs pold = true
            · have hreg :
                  (applyEvent w (Event.delete name nspace)).1.ray_clusters
                    = alist_erase (name, nspace) w.ray_clusters := by
                simp [applyEvent, delete_fn, hf, clean_up_subprocess, hcs,
                  proc_alive, ha]
              have hprocs :
                  (applyEvent w (Event.delete name nspace)).1.procs
                    = kill_proc w.procs pold := by
                simp [applyEvent, delete_fn, hf, clean_up_subprocess, hcs,
                  proc_alive, ha]
              have hnext :
                  (applyEvent w (Event.delete name nspace)).1.next_pid
                    = w.next_pid := by
                simp [applyEvent, delete_fn, hf, clean_up_subprocess, hcs,
                  proc_alive, ha]
              refine Inv_deleted hInv (name, nspace) ?_ ?_ hnext ?_ ?_
              · intro j hj
                rw [hreg, alist_lookup_erase_ne hj]
              · intro e' he'
                rw [hreg] at he'
                exact hInv.2.2 e' (alist_mem_erase he')
              · intro q j hm
                rw [hprocs] at hm
                exact rest_facts_alive hInv hf hcs q j hm
              · intro e' he'
                rw [hprocs] at he'
                exact kill_bound hInv pold e' he'
            · rw [Bool.not_eq_true] at ha
              have hreg :
                  (applyEvent w (Event.delete name nspace)).1.ray_clusters
                    = alist_erase (name, nspace) w.ray_clusters := by
                simp [applyEvent, delete_fn, hf, clean_up_subprocess, hcs,
                  proc_alive, ha]
              have hprocs :
                  (applyEvent w (Event.delete name nspace)).1.procs
                    = w.procs := by
                simp [applyEvent, delete_fn, hf, clean_up_subprocess, hcs,
                  proc_alive, ha]
              have hnext :
                  (applyEvent w (Event.delete name nspace)).1.next_pid
                    = w.next_pid := by
                simp [applyEvent, delete_fn, hf, clean_up_subprocess, hcs,
                  proc_alive, ha]
              refine Inv_deleted hInv (name, nspace) ?_ ?_ hnext ?_ ?_
              · intro j hj
                rw [hreg, alist_lookup_erase_ne hj]
              · intro e' he'
                rw [hreg] at he'
                exact hInv.2.2 e' (alist_mem_erase he')
              · intro q j hm
                rw [hprocs] at hm
                exact rest_facts_dead hInv hf hcs ha q j hm
              · intro e' he'
                rw [hprocs] at he'
                exact hInv.2.1 e' he'

theorem Inv_runEvents (es : List Event) (w : World) (hInv : Inv w)
    (hwf : wf_events w es = true) : Inv (runEvents w es) := by
  induction es generalizing w with
  | nil => exact hInv
  | cons e t ih =>
      rw [wf_events, Bool.and_eq_true] at hwf
      rw [runEvents]
      exact ih _ (Inv_applyEvent w e hInv hwf.1) hwf.2

/-- C5 counterexample: delivering two create events for the same
identifier with no delete between them (which the watch framework never
does) leaks the first supervisor's process: afterwards two distinct
subprocesses (pids 0 and 1) are alive for `(foo, ns1)` at once, because
`create_fn` replaces the registry entry without cleaning up the old
supervisor. -/
theorem c5_counterexample :
    (runEvents init_world
        [Event.create (sample_body 1) "foo" "ns1" true true,
         Event.create (sample_body 1) "foo" "ns1" true true]).procs
      = [(1, ("foo", "ns1"), true), (0, ("foo", "ns1"), true)]
    ∧ (0, (("foo", "ns1") : ClusterId), true)
        ∈ (runEvents init_world
            [Event.create (sample_body 1) "foo" "ns1" true true,
             Event.create (sample_body 1) "foo" "ns1" true true]).procs
    ∧ (1, (("foo", "ns1") : ClusterId), true)
        ∈ (runEvents init_world
            [Event.create (sample_body 1) "foo" "ns1" true true,
             Event.create (sample_body 1) "foo" "ns1" true true]).procs := by
  refine ⟨by decide, by decide, by decide⟩

/-- C5 amended: under the watch framework's delivery discipline (bodies
coherent with their handler arguments, create/resume only for
identifiers without a registry entry), at most one supervised process is
alive per identifier after any event sequence; and
`clean_up_subprocess` is a no-op when there is no live process, while on
a live process it raises the stop event, joins, and clears the event
(leaving the process dead and the event cleared); every launch
(`do_in_subprocess`) first runs `clean_up_subprocess`. -/
theorem c5_at_most_one :
    (∀ es : List Event, wf_events init_world es = true →
      ∀ (k : ClusterId) (p q : Nat),
        (p, k, true) ∈ (runEvents init_world es).procs →
        (q, k, true) ∈ (runEvents init_world es).procs → p = q)
    ∧ (∀ (c : RayCluster) (w : World), c.subprocess = none →
        clean_up_subprocess c w = (c, w, []))
    ∧ (∀ (c : RayCluster) (w : World) (p : Nat), c.subprocess = some p →
        proc_alive w p = false → clean_up_subprocess c w = (c, w, []))
    ∧ (∀ (c : RayCluster) (w : World) (p : Nat), c.subprocess = some p →
        proc_alive w p = true →
          (clean_up_subprocess c w).2.2
              = [Act.set_stop_event c.cid, Act.join_subprocess c.cid p,
                 Act.clear_stop_event c.cid]
            ∧ proc_alive (clean_up_subprocess c w).2.1 p = false
            ∧ (clean_up_subprocess c w).1.monitor_stop_event = false)
    ∧ (∀ (c : RayCluster) (w : World) (r : Bool),
        (do_in_subprocess c w r).2.2.1
          = (clean_up_subprocess c w).2.2
              ++ [Act.spawn_subprocess (clean_up_subprocess c w).1.cid
                    (clean_up_subprocess c w).2.1.next_pid r]) := by
  refine ⟨?_, ?_, ?_, ?_, ?_⟩
  · intro es hwf k p q hp hq
    have hInv := Inv_runEvents es init_world Inv_init hwf
    rcases hInv.1 p k hp with ⟨c, hc, hs⟩
    rcases hInv.1 q k hq with ⟨c', hc', hs'⟩
    rw [hc] at hc'
    injection hc' with hcc
    subst hcc
    rw [hs] at hs'
    exact Option.some.inj hs'
  · exact fun c w h => clean_up_subprocess_none w h
  · exact fun c w p h hd => clean_up_subprocess_dead h hd
  · intro c w p h hpa
    rw [clean_up_subprocess_alive h hpa]
    refine ⟨rfl, ?_, rfl⟩
    simpa [proc_alive] using alive_in_kill_self w.procs p
  · intro c w r
    rfl

/-- Witness for C5 at a concrete well-formed one-create run, in which
only pid 0 is alive for `(foo, ns1)`. -/
theorem c5_at_most_one_witness :
    wf_events init_world
        [Event.create (sample_body 1) "foo" "ns1" true true] = true
      ∧ (0 : Nat) = 0 :=
  ⟨by decide,
   c5_at_most_one.1 [Event.create (sample_body 1) "foo" "ns1" true true]
     (by decide) ("foo", "ns1") 0 0 (by decide) (by decide)⟩

end RayOperator
